import Mathlib

/-!
Verification development for the Sky Forecast Hub AQI prediction system.

The repository is a React/TypeScript frontend (`PredictionForm.tsx`,
`DatePredictionForm`, `AQICard`) talking to a FastAPI backend over
`POST /predict` and `POST /predict-by-date`.  The frontend components are
embedded here directly from their TypeScript source.  The backend core
(feature synthesizer, feature engineer, predictor, categorizer, explainer)
is not part of the repository checkout; those components are modelled from
the specification, and each such definition is marked
`Modelled from the spec:` in its doc comment.

Real numbers are modelled as rationals.  JavaScript `Number` values, which
can be `NaN` or infinite, are modelled by the `JSNum` type.
-/

/-- A raw environmental reading: the seven named numeric fields of the
`/predict` request body (`AQIInput`): temperature in Celsius, relative
humidity in percent, wind speed in m/s, NO2, CO, PM2.5 and PM10
concentrations. -/
structure RawReading where
  temperature : ℚ
  humidity : ℚ
  windSpeed : ℚ
  no2 : ℚ
  co : ℚ
  pm25 : ℚ
  pm10 : ℚ
  deriving DecidableEq

/-- A calendar date broken into its year, month (1..12) and day (1..31)
components. -/
structure CalendarDate where
  year : Nat
  month : Nat
  day : Nat
  deriving DecidableEq

/-- The four seasons the backend derives from the month of a date. -/
inductive Season where
  | Winter
  | Summer
  | Monsoon
  | PostMonsoon
  deriving DecidableEq

/-- The five ordinal AQI health categories. -/
inductive Category where
  | Good
  | Moderate
  | Poor
  | VeryPoor
  | Hazardous
  deriving DecidableEq

/-- Modelled from the spec: the backend categorizer (not under `src/`).
Fixed, non-overlapping, half-open thresholds: [0,50) Good, [50,100)
Moderate, [100,200) Poor, [200,300) VeryPoor, [300,inf) Hazardous; a
boundary value belongs to the higher category by the single uniform rule
of strict upper bounds. -/
def categorize (aqi : ℚ) : Category :=
  if aqi < 50 then Category.Good
  else if aqi < 100 then Category.Moderate
  else if aqi < 200 then Category.Poor
  else if aqi < 300 then Category.VeryPoor
  else Category.Hazardous

/-- The literal category strings the API returns, as listed in the spec and
matched by the frontend `AQICard` lookup tables. -/
def categoryName : Category → String
  | Category.Good => "Good"
  | Category.Moderate => "Moderate"
  | Category.Poor => "Poor"
  | Category.VeryPoor => "Very Poor"
  | Category.Hazardous => "Hazardous"

/-- Modelled from the spec: the backend season table (not under `src/`).
Season is a pure function of the month component alone; December through
February are Winter, March through June are Summer (so 2024-06-15 is a
Summer date, as in the documented `/predict-by-date` example), July
through September are Monsoon, October and November are PostMonsoon. -/
def seasonOfMonth (m : Nat) : Season :=
  if m ≤ 2 then Season.Winter
  else if m ≤ 6 then Season.Summer
  else if m ≤ 9 then Season.Monsoon
  else if m ≤ 11 then Season.PostMonsoon
  else Season.Winter

/-- Season of a date: a function of only the month component. -/
def season (d : CalendarDate) : Season := seasonOfMonth d.month

/-- Human-readable season names used by the explainer. -/
def seasonName : Season → String
  | Season.Winter => "Winter"
  | Season.Summer => "Summer"
  | Season.Monsoon => "Monsoon"
  | Season.PostMonsoon => "Post-Monsoon"

/-- Cumulative days before the first of each month in a non-leap year,
used for the day-of-year temporal feature. -/
def monthDaysBefore : Nat → Nat
  | 1 => 0
  | 2 => 31
  | 3 => 59
  | 4 => 90
  | 5 => 120
  | 6 => 151
  | 7 => 181
  | 8 => 212
  | 9 => 243
  | 10 => 273
  | 11 => 304
  | 12 => 334
  | _ => 0

/-- Day of year (1..365) of a date, from the cumulative month table. -/
def dayOfYear (d : CalendarDate) : Nat := monthDaysBefore d.month + d.day

/-- Day of week by the Sakamoto congruence, 0 = Sunday .. 6 = Saturday. -/
def dayOfWeek (d : CalendarDate) : Nat :=
  let t := [0, 3, 2, 5, 0, 3, 5, 1, 4, 6, 2, 4]
  let y := if d.month < 3 then d.year - 1 else d.year
  (y + y / 4 + y / 400 + t.getD (d.month - 1) 0 + d.day - y / 100) % 7

/-- Whether a date falls on a Saturday or Sunday. -/
def isWeekend (d : CalendarDate) : Bool := dayOfWeek d = 0 || dayOfWeek d = 6

/-- Modelled from the spec: the season-specific baseline readings of the
feature synthesizer (not under `src/`): Winter has higher PM2.5/PM10 and
lower wind speed (inversion), Summer has the highest temperature, Monsoon
has higher humidity and wind and lower particulates, PostMonsoon sits in
between. -/
def baseline : Season → RawReading
  | Season.Winter => ⟨15, 70, 5, 55, 28/10, 85, 110⟩
  | Season.Summer => ⟨34, 60, 10, 35, 2, 25, 32⟩
  | Season.Monsoon => ⟨28, 85, 12, 25, 15/10, 15, 22⟩
  | Season.PostMonsoon => ⟨25, 65, 7, 45, 22/10, 55, 70⟩

/-- Modelled from the spec: the small deterministic perturbation keyed off
day-of-year, bounded in [-1/2, 2/5], so that different dates in the same
season give slightly different but bounded values. -/
def perturb (doy : Nat) : ℚ := ((doy % 10 : Nat) : ℚ) / 10 - 1/2

/-- Modelled from the spec: the feature synthesizer (not under `src/`):
season baseline plus a deterministic day-of-year perturbation.  A pure
function, so identical dates always give identical readings. -/
def synthesize (d : CalendarDate) : RawReading :=
  let b := baseline (season d)
  let p := perturb (dayOfYear d)
  ⟨b.temperature + p, b.humidity + p, b.windSpeed + p, b.no2 + p,
    b.co + p / 10, b.pm25 + p, b.pm10 + p⟩

/-- The injected numeric kernel for the cyclical encodings (the sine and
cosine routines of the deployed numeric library, opaque here). -/
structure Trig where
  sin : ℚ → ℚ
  cos : ℚ → ℚ

/-- An engineered feature vector: an ordered mapping from feature name to
numeric value. -/
abbrev FeatureVector := List (String × ℚ)

/-- Modelled from the spec: the feature engineer (not under `src/`).
Emits the seven raw fields, the temporal features (month, day-of-year,
is-weekend when a date is present; neutral defaults in manual mode), the
cyclical sine/cosine encodings of month and day-of-year, and the pollutant
interaction features, in a fixed name order. -/
def engineer (trig : Trig) (r : RawReading) (d : Option CalendarDate) : FeatureVector :=
  let monthQ : ℚ := match d with
    | some dd => (dd.month : ℚ)
    | none => 6
  let doyQ : ℚ := match d with
    | some dd => (dayOfYear dd : ℚ)
    | none => 180
  let weekendQ : ℚ := match d with
    | some dd => if isWeekend dd then 1 else 0
    | none => 0
  [ ("Temperature", r.temperature), ("Humidity", r.humidity),
    ("WindSpeed", r.windSpeed), ("NO2", r.no2), ("CO", r.co),
    ("PM25", r.pm25), ("PM10", r.pm10),
    ("month", monthQ), ("day_of_year", doyQ), ("is_weekend", weekendQ),
    ("month_sin", trig.sin (monthQ / 12)), ("month_cos", trig.cos (monthQ / 12)),
    ("day_sin", trig.sin (doyQ / 365)), ("day_cos", trig.cos (doyQ / 365)),
    ("PM25_PM10_ratio", r.pm25 / r.pm10), ("NO2_CO_interaction", r.no2 * r.co) ]

/-- The frozen model artifact: the ordered feature-name list it was fit on
and the opaque composition of the frozen scaler with the frozen regressor,
injected as a read-only dependency as the spec directs. -/
structure FrozenModel where
  featureNames : List String
  rawPredict : FeatureVector → ℚ

/-- Modelled from the spec: the predictor (not under `src/`): applies the
frozen scaler and regressor and clamps the result to be non-negative; no
upper clamp. -/
def predict (m : FrozenModel) (v : FeatureVector) : ℚ :=
  max 0 (m.rawPredict v)

/-- The health guidance sentence the explainer appends for each category. -/
def categoryGuidance : Category → String
  | Category.Good => "Air quality is satisfactory and poses little or no health risk."
  | Category.Moderate => "Air quality is acceptable for most people, but sensitive individuals may experience minor respiratory issues."
  | Category.Poor => "Sensitive groups may experience health effects."
  | Category.VeryPoor => "Health alert: everyone may experience health effects."
  | Category.Hazardous => "Health warning: emergency conditions affecting the entire population."

/-- Modelled from the spec: the explainer (not under `src/`): deterministic
template assembly appending a clause per raw field that exceeds its
documented threshold, a season-context clause in date mode, and the
category guidance. -/
def explain (r : RawReading) (c : Category) (s : Option Season) : String :=
  (match s with
    | some ss => "Prediction for the " ++ seasonName ss ++ " season. "
    | none => "") ++
  (if 30 ≤ r.temperature then "High temperature can increase ozone formation. " else "") ++
  (if 60 ≤ r.humidity then "High humidity may trap pollutants. " else "") ++
  (if 35 ≤ r.pm25 then "Elevated PM2.5 levels contribute to air quality concerns. " else "") ++
  categoryGuidance c

/-- The result of a prediction as returned by the API: the numeric AQI, the
category string, the explanation text, and — in date mode only — the
synthesized conditions and the echoed date string. -/
structure PredictionResult where
  aqi : ℚ
  category : String
  explanation : String
  estimatedConditions : Option RawReading
  date : Option String

/-- Zero-padded two-digit rendering of a month or day number. -/
def pad2 (n : Nat) : String := if n < 10 then "0" ++ toString n else toString n

/-- ISO 8601 rendering of a date, YYYY-MM-DD. -/
def isoString (d : CalendarDate) : String :=
  toString d.year ++ "-" ++ pad2 d.month ++ "-" ++ pad2 d.day

/-- Modelled from the spec: the manual (`POST /predict`) pipeline over the
injected frozen model: engineer the reading with no date, predict,
categorize and explain.  The result carries no estimated conditions and no
date. -/
def predictManual (m : FrozenModel) (trig : Trig) (r : RawReading) : PredictionResult :=
  let aqi := predict m (engineer trig r none)
  ⟨aqi, categoryName (categorize aqi), explain r (categorize aqi) none, none, none⟩

/-- Modelled from the spec: the date-based (`POST /predict-by-date`)
pipeline: synthesize the reading for the date, engineer it with the date,
predict, categorize and explain with season context.  The result carries
the synthesized conditions and echoes the date string. -/
def predictByDate (m : FrozenModel) (trig : Trig) (d : CalendarDate) : PredictionResult :=
  let r := synthesize d
  let aqi := predict m (engineer trig r (some d))
  ⟨aqi, categoryName (categorize aqi), explain r (categorize aqi) (some (season d)),
    some r, some (isoString d)⟩

/-!
Frontend embedding: `AQICard` (src/unnamed/part_001), `PredictionForm`
(src/src/components/PredictionForm.tsx) and `DatePredictionForm`
(src/unnamed/part_000).
-/

/-- A JavaScript value as observed from the `AQICard` record lookups: an
own string entry, an own React-element entry (named by the lucide
component it instantiates), a member inherited from `Object.prototype`
(named by its property name), or `undefined`. -/
inductive JSValue where
  | str (s : String)
  | node (name : String)
  | protoFn (name : String)
  | undef
  deriving DecidableEq

/-- The accessible property names of `Object.prototype`.  An object
literal inherits these, so indexing it with one of them yields the
inherited member — a function or the prototype object, never
`undefined`. -/
def objectPrototypeProps : List String :=
  [ "constructor", "hasOwnProperty", "isPrototypeOf", "propertyIsEnumerable",
    "toLocaleString", "toString", "valueOf", "__defineGetter__",
    "__defineSetter__", "__lookupGetter__", "__lookupSetter__", "__proto__" ]

/-- JavaScript property access `obj[key]` on an object literal: the own
entry when the key is one of the literal's keys, else the member
inherited from `Object.prototype`, else `undefined`. -/
def jsIndex (own : List (String × JSValue)) (key : String) : JSValue :=
  match own.lookup key with
  | some v => v
  | none =>
      if key ∈ objectPrototypeProps then JSValue.protoFn key else JSValue.undef

/-- JavaScript truthiness of the values above: `undefined` and the empty
string are falsy; non-empty strings, React elements and inherited
functions are truthy. -/
def truthy : JSValue → Bool
  | JSValue.str s => !(s == "")
  | JSValue.node _ => true
  | JSValue.protoFn _ => true
  | JSValue.undef => false

/-- JavaScript `a || b` on the values above. -/
def jsOrElse (a b : JSValue) : JSValue := if truthy a then a else b

/-- The `colors` record of `AQICard.getAQIColor`. -/
def aqiColors : List (String × JSValue) :=
  [ ("Good", JSValue.str "hsl(var(--aqi-good))"),
    ("Moderate", JSValue.str "hsl(var(--aqi-moderate))"),
    ("Poor", JSValue.str "hsl(var(--aqi-poor))"),
    ("Very Poor", JSValue.str "hsl(var(--aqi-very-poor))"),
    ("Hazardous", JSValue.str "hsl(var(--aqi-hazardous))") ]

/-- `AQICard.getAQIColor`: `colors[category] || colors.Good`, with full
property-access semantics: a key inherited from `Object.prototype` (such
as `toString`) yields the inherited function, which is truthy, so the
Good fallback does not fire on it. -/
def getAQIColor (category : String) : JSValue :=
  jsOrElse (jsIndex aqiColors category) (jsIndex aqiColors "Good")

/-- The `icons` record of `AQICard.getIcon`. -/
def aqiIcons : List (String × JSValue) :=
  [ ("Good", JSValue.node "CheckCircle"),
    ("Moderate", JSValue.node "AlertCircle"),
    ("Poor", JSValue.node "AlertTriangle"),
    ("Very Poor", JSValue.node "XCircle"),
    ("Hazardous", JSValue.node "Skull") ]

/-- `AQICard.getIcon`: `icons[category] || icons.Good`, with the same
property-access semantics as `getAQIColor`. -/
def getIcon (category : String) : JSValue :=
  jsOrElse (jsIndex aqiIcons category) (jsIndex aqiIcons "Good")

/-- The `descriptions` record of `AQICard.getDescription`. -/
def aqiDescriptions : List (String × JSValue) :=
  [ ("Good", JSValue.str "Air quality is satisfactory and poses little or no health risk."),
    ("Moderate", JSValue.str "Air quality is acceptable for most individuals."),
    ("Poor", JSValue.str "Sensitive groups may experience health effects."),
    ("Very Poor", JSValue.str "Health alert: everyone may experience health effects."),
    ("Hazardous", JSValue.str "Health warning: emergency conditions affecting the entire population.") ]

/-- `AQICard.getDescription`: `descriptions[category] || descriptions.Good`,
with the same property-access semantics as `getAQIColor`. -/
def getDescription (category : String) : JSValue :=
  jsOrElse (jsIndex aqiDescriptions category) (jsIndex aqiDescriptions "Good")

/-- Value classes of a JavaScript number: NaN, the two infinities, or a
finite value (modelled as a rational). -/
inductive JSNum where
  | nan
  | inf
  | negInf
  | finite (q : ℚ)
  deriving DecidableEq

/-- Decimal digits to the natural number they denote. -/
def digitsToNat (cs : List Char) : Nat :=
  cs.foldl (fun n c => n * 10 + (c.toNat - 48)) 0

/-- Parse an unsigned decimal numeral with an optional fractional part
(the `digits`, `digits.digits`, `digits.` and `.digits` forms). -/
def parseDecimal (cs : List Char) : Option ℚ :=
  let intPart := cs.takeWhile Char.isDigit
  let rest := cs.dropWhile Char.isDigit
  match rest with
  | [] => if intPart.isEmpty then none else some ((digitsToNat intPart : ℚ))
  | '.' :: fracPart =>
      if fracPart.all Char.isDigit && !(intPart.isEmpty && fracPart.isEmpty) then
        some ((digitsToNat intPart : ℚ) + (digitsToNat fracPart : ℚ) / (10 : ℚ) ^ fracPart.length)
      else none
  | _ => none

/-- Unsigned part of the `Number(string)` conversion: the literal
`Infinity`, or a decimal numeral, or NaN. -/
def jsNumberCore (cs : List Char) : JSNum :=
  if cs = "Infinity".toList then JSNum.inf
  else match parseDecimal cs with
    | some q => JSNum.finite q
    | none => JSNum.nan

/-- Model of the JavaScript `Number(string)` conversion on the decimal
fragment relevant to the form: the empty string converts to 0, an
optional sign precedes either the literal `Infinity` or a decimal
numeral, and everything else is NaN (hexadecimal and exponent forms are
outside the modelled fragment). -/
def jsNumber (s : String) : JSNum :=
  match s.toList with
  | [] => JSNum.finite 0
  | '-' :: rest =>
      (match jsNumberCore rest with
        | JSNum.inf => JSNum.negInf
        | JSNum.finite q => JSNum.finite (-q)
        | _ => JSNum.nan)
  | '+' :: rest => jsNumberCore rest
  | cs => jsNumberCore cs

/-- Whether a JavaScript number is NaN (`isNaN` on an already-converted
number). -/
def isNaNb : JSNum → Bool
  | JSNum.nan => true
  | _ => false

/-- The state of the manual `PredictionForm`: seven text fields. -/
structure FormData where
  temperature : String
  humidity : String
  windSpeed : String
  no2 : String
  co : String
  pm25 : String
  pm10 : String
  deriving DecidableEq

/-- `Object.values(formData)` in form order. -/
def formValues (f : FormData) : List String :=
  [f.temperature, f.humidity, f.windSpeed, f.no2, f.co, f.pm25, f.pm10]

/-- The `PredictionForm.handleSubmit` validation:
`values.some((val) => val === "" || isNaN(Number(val)))`. -/
def manualFormRejects (f : FormData) : Bool :=
  (formValues f).any fun v => v == "" || isNaNb (jsNumber v)

/-- The body `PredictionForm.handleSubmit` passes to `JSON.stringify` for
`POST /predict`: each field converted with `Number(...)`. -/
def manualSubmitPayload (f : FormData) : List (String × JSNum) :=
  [ ("Temperature", jsNumber f.temperature), ("Humidity", jsNumber f.humidity),
    ("WindSpeed", jsNumber f.windSpeed), ("NO2", jsNumber f.no2),
    ("CO", jsNumber f.co), ("PM25", jsNumber f.pm25), ("PM10", jsNumber f.pm10) ]

/-- Epoch milliseconds of `new Date("2020-01-01")`, the form minimum. -/
def minDateTs : Int := 1577836800000

/-- Epoch milliseconds of `new Date("2030-12-31")`, the form maximum. -/
def maxDateTs : Int := 1924905600000

/-- JavaScript `<` on two Date timestamps, where `none` models an Invalid
Date (NaN timestamp): every comparison against NaN is false. -/
def jsDateLt : Option Int → Option Int → Bool
  | some a, some b => decide (a < b)
  | _, _ => false

/-- Outcome of the `DatePredictionForm.handleSubmit` client-side checks:
rejected for an empty date, rejected for an out-of-range date, or
submitted to `POST /predict-by-date` with the given date string. -/
inductive DateFormOutcome where
  | rejectedEmpty
  | rejectedRange
  | submitted (date : String)
  deriving DecidableEq

/-- The `DatePredictionForm.handleSubmit` validation: reject the empty
date, then reject when `selectedDate < minDate || selectedDate > maxDate`
on the parsed timestamp (`none` = Invalid Date), otherwise submit the
date string to the API. -/
def datePredictionValidate (dateStr : String) (parsedTs : Option Int) : DateFormOutcome :=
  if dateStr = "" then DateFormOutcome.rejectedEmpty
  else if jsDateLt parsedTs (some minDateTs) || jsDateLt (some maxDateTs) parsedTs then
    DateFormOutcome.rejectedRange
  else DateFormOutcome.submitted dateStr

/-- Whether a year is a Gregorian leap year. -/
def isLeap (y : Nat) : Bool := (y % 4 == 0 && y % 100 != 0) || y % 400 == 0

/-- Number of days in a month of a given year. -/
def daysInMonth (y m : Nat) : Nat :=
  if m == 2 then (if isLeap y then 29 else 28)
  else if m == 4 || m == 6 || m == 9 || m == 11 then 30
  else 31

/-- Digits-only string to a natural number, `none` on a non-digit or the
empty string. -/
def parseNatDigits (cs : List Char) : Option Nat :=
  if cs.isEmpty || !cs.all Char.isDigit then none else some (digitsToNat cs)

/-- Split a character list into the groups separated by dashes. -/
def splitDash : List Char → List (List Char)
  | [] => [[]]
  | c :: cs =>
      let r := splitDash cs
      if c = '-' then [] :: r
      else match r with
        | [] => [[c]]
        | g :: gs => (c :: g) :: gs

/-- Modelled from the spec: the API-boundary date parsing of
`POST /predict-by-date` (backend not under `src/`): a strict
`YYYY-MM-DD` parse that yields `none` — an `InvalidInput` rejection, the
documented 422 — on anything unparsable as a calendar date. -/
def parseIsoDate (s : String) : Option CalendarDate :=
  match splitDash s.toList with
  | [ys, ms, ds] => do
      let y ← parseNatDigits ys
      let m ← parseNatDigits ms
      let dy ← parseNatDigits ds
      if 1 ≤ m && m ≤ 12 && 1 ≤ dy && dy ≤ daysInMonth y m then
        pure (CalendarDate.mk y m dy)
      else none
  | _ => none

/-- Outcome of a request crossing the UI and API boundaries: rejected by
the client-side validation with its toast message, rejected by the API
boundary validation, or handed to the core pipeline. -/
inductive BoundaryOutcome where
  | rejectedAtUI (msg : String)
  | rejectedAtAPI (msg : String)
  | corePrediction (res : PredictionResult)

/-- Whether a boundary outcome reached the core pipeline. -/
def reachesCore : BoundaryOutcome → Bool
  | BoundaryOutcome.corePrediction _ => true
  | _ => false

/-- Conversion of a JavaScript number to a finite rational, `none` when it
is NaN or infinite. -/
def finiteOf : JSNum → Option ℚ
  | JSNum.finite q => some q
  | _ => none

/-- The reading the API boundary accepts from a manual form: all seven
converted fields must be finite (JSON serialization turns a non-finite
number into `null`, which the `AQIInput` float validation rejects). -/
def readingOfForm (f : FormData) : Option RawReading := do
  let t ← finiteOf (jsNumber f.temperature)
  let h ← finiteOf (jsNumber f.humidity)
  let w ← finiteOf (jsNumber f.windSpeed)
  let n ← finiteOf (jsNumber f.no2)
  let c ← finiteOf (jsNumber f.co)
  let p25 ← finiteOf (jsNumber f.pm25)
  let p10 ← finiteOf (jsNumber f.pm10)
  pure (RawReading.mk t h w n c p25 p10)

/-- The manual request path across both boundaries: the
`PredictionForm.handleSubmit` validation, then the API-boundary field
validation (modelled from the spec), then the core manual pipeline. -/
def manualRequestBoundary (m : FrozenModel) (trig : Trig) (f : FormData) : BoundaryOutcome :=
  if manualFormRejects f then
    BoundaryOutcome.rejectedAtUI "Please fill in all fields with valid numbers"
  else match readingOfForm f with
    | some r => BoundaryOutcome.corePrediction (predictManual m trig r)
    | none => BoundaryOutcome.rejectedAtAPI "Unprocessable Entity"

/-- The date request path across both boundaries: the
`DatePredictionForm.handleSubmit` checks on the JavaScript-parsed
timestamp, then the API-boundary ISO date parse (modelled from the spec),
then the core date pipeline. -/
def dateRequestBoundary (m : FrozenModel) (trig : Trig)
    (dateStr : String) (parsedTs : Option Int) : BoundaryOutcome :=
  if dateStr = "" then BoundaryOutcome.rejectedAtUI "Please select a date"
  else if jsDateLt parsedTs (some minDateTs) || jsDateLt (some maxDateTs) parsedTs then
    BoundaryOutcome.rejectedAtUI "Please select a date between 2020 and 2030"
  else match parseIsoDate dateStr with
    | none => BoundaryOutcome.rejectedAtAPI "Invalid date format"
    | some d => BoundaryOutcome.corePrediction (predictByDate m trig d)

/-- A trivial frozen model used as a concrete instance in closed checks. -/
def mdl0 : FrozenModel := ⟨[], fun _ => 75⟩

/-- A trivial numeric kernel used as a concrete instance in closed checks. -/
def trig0 : Trig := ⟨fun _ => 0, fun _ => 1⟩

/-- The documented manual example reading. -/
def reading0 : RawReading := ⟨255/10, 652/10, 123/10, 452/10, 21/10, 358/10, 421/10⟩

/-- The all-empty manual form. -/
def formEmpty : FormData := ⟨"", "", "", "", "", "", ""⟩

/-- A manual form with the string `Infinity` in the PM2.5 field and valid
numerals elsewhere. -/
def formInfinity : FormData := ⟨"1", "1", "1", "1", "1", "Infinity", "1"⟩

/-!
Helper lemmas shared by the claim theorems.
-/

/-- A category value is always one of the five enumerated categories. -/
theorem category_mem_all (c : Category) :
    c ∈ [Category.Good, Category.Moderate, Category.Poor, Category.VeryPoor,
      Category.Hazardous] := by
  cases c <;> simp

/-- A category name is always one of the five literal strings. -/
theorem categoryName_mem_all (c : Category) :
    categoryName c ∈ ["Good", "Moderate", "Poor", "Very Poor", "Hazardous"] := by
  cases c <;> simp [categoryName]

/-- `isNaNb` recognizes exactly the NaN value. -/
theorem isNaNb_eq_true (j : JSNum) : isNaNb j = true ↔ j = JSNum.nan := by
  cases j <;> simp [isNaNb]

/-!
Claim theorems.
-/

/-- Claim C1: for every real AQI value, `categorize` is determined by the
fixed half-open thresholds [0,50) Good, [50,100) Moderate, [100,200) Poor,
[200,300) VeryPoor, [300,inf) Hazardous, and in particular the boundary
values 50, 100, 200 and 300 map to Moderate, Poor, VeryPoor and Hazardous
respectively, by one uniform rule. -/
theorem categorize_halfopen_thresholds (x : ℚ) (h0 : 0 ≤ x) :
    (x < 50 → categorize x = Category.Good) ∧
    (50 ≤ x → x < 100 → categorize x = Category.Moderate) ∧
    (100 ≤ x → x < 200 → categorize x = Category.Poor) ∧
    (200 ≤ x → x < 300 → categorize x = Category.VeryPoor) ∧
    (300 ≤ x → categorize x = Category.Hazardous) ∧
    categorize 50 = Category.Moderate ∧
    categorize 100 = Category.Poor ∧
    categorize 200 = Category.VeryPoor ∧
    categorize 300 = Category.Hazardous := by
  refine ⟨?_, ?_, ?_, ?_, ?_, by norm_num [categorize], by norm_num [categorize],
    by norm_num [categorize], by norm_num [categorize]⟩ <;>
    · intros
      unfold categorize
      split_ifs <;> first | rfl | linarith

/-- Closed check of C1 at a concrete input: 150 lies in [100,200) and is
categorized Poor. -/
theorem categorize_halfopen_thresholds_check :
    (0 : ℚ) ≤ 150 ∧ categorize 150 = Category.Poor :=
  ⟨by norm_num,
    (categorize_halfopen_thresholds 150 (by norm_num)).2.2.1 (by norm_num) (by norm_num)⟩

/-- Claim C2: for every reading, the manual pipeline value
`predict (engineer r)` is non-negative (clamped below at zero), applying
`categorize` to it yields one of the five fixed categories, and there is
no upper clamp: for every bound some frozen model produces a larger
prediction on the same engineered vector. -/
theorem pipeline_nonneg_and_category_total (m : FrozenModel) (trig : Trig) (r : RawReading) :
    0 ≤ predict m (engineer trig r none) ∧
    categorize (predict m (engineer trig r none)) ∈
      [Category.Good, Category.Moderate, Category.Poor, Category.VeryPoor,
        Category.Hazardous] ∧
    ∀ bound : ℚ, ∃ m2 : FrozenModel, bound < predict m2 (engineer trig r none) := by
  refine ⟨le_max_left 0 _, category_mem_all _, ?_⟩
  intro bound
  refine ⟨⟨[], fun _ => max 0 bound + 1⟩, ?_⟩
  have h1 : bound ≤ max 0 bound := le_max_right 0 bound
  have h2 : max 0 bound + 1 ≤ max 0 (max 0 bound + 1) := le_max_right 0 _
  calc bound < max 0 bound + 1 := by linarith
    _ ≤ predict ⟨[], fun _ => max 0 bound + 1⟩ (engineer trig r none) := h2

/-- Claim C3: every core operation is deterministic: `synthesize` on equal
dates returns equal readings, and the full date-mode and manual pipelines
on equal inputs return equal results. -/
theorem core_operations_deterministic (m : FrozenModel) (trig : Trig)
    (d d' : CalendarDate) (r r' : RawReading) (hd : d = d') (hr : r = r') :
    synthesize d = synthesize d' ∧
    predictByDate m trig d = predictByDate m trig d' ∧
    predictManual m trig r = predictManual m trig r' := by
  subst hd
  subst hr
  exact ⟨rfl, rfl, rfl⟩

/-- Closed check of C3 on the concrete date 2024-06-15 and the documented
example reading. -/
theorem core_operations_deterministic_check :
    synthesize ⟨2024, 6, 15⟩ = synthesize ⟨2024, 6, 15⟩ ∧
    predictByDate mdl0 trig0 ⟨2024, 6, 15⟩ = predictByDate mdl0 trig0 ⟨2024, 6, 15⟩ ∧
    predictManual mdl0 trig0 reading0 = predictManual mdl0 trig0 reading0 :=
  core_operations_deterministic mdl0 trig0 ⟨2024, 6, 15⟩ ⟨2024, 6, 15⟩ reading0 reading0
    rfl rfl

/-- Claim C4: season is a function of only the month component, with the
four-season codomain; 2024-06-15 resolves to Summer and 2024-12-25 to
Winter. -/
theorem season_depends_only_on_month (d d' : CalendarDate) (h : d.month = d'.month) :
    season d = season d' ∧
    season ⟨2024, 6, 15⟩ = Season.Summer ∧
    season ⟨2024, 12, 25⟩ = Season.Winter ∧
    ∀ e : CalendarDate,
      season e ∈ [Season.Winter, Season.Summer, Season.Monsoon, Season.PostMonsoon] := by
  refine ⟨?_, by decide, by decide, ?_⟩
  · unfold season
    rw [h]
  · intro e
    cases season e <;> simp

/-- Closed check of C4: two dates sharing month 3 in different years get
the same season. -/
theorem season_depends_only_on_month_check :
    season ⟨2020, 3, 1⟩ = season ⟨2021, 3, 9⟩ ∧
    season ⟨2024, 6, 15⟩ = Season.Summer ∧
    season ⟨2024, 12, 25⟩ = Season.Winter ∧
    ∀ e : CalendarDate,
      season e ∈ [Season.Winter, Season.Summer, Season.Monsoon, Season.PostMonsoon] :=
  season_depends_only_on_month ⟨2020, 3, 1⟩ ⟨2021, 3, 9⟩ rfl

/-- Claim C5: a manual request with a non-numeric or missing field, and a
date request whose date is out of the supported range or unparsable (such
as 1999-01-01), is rejected at the API/UI boundary with a user-visible
message, and the core pipeline is never invoked. -/
theorem invalid_input_rejected_at_boundary (m : FrozenModel) (trig : Trig)
    (f : FormData) (s : String) (ts : Int) (s2 : String) (ts2 : Option Int)
    (hf : manualFormRejects f = true)
    (hs : s ≠ "")
    (hts : ts < minDateTs ∨ maxDateTs < ts)
    (hp : parseIsoDate s2 = none) :
    manualRequestBoundary m trig f =
      BoundaryOutcome.rejectedAtUI "Please fill in all fields with valid numbers" ∧
    dateRequestBoundary m trig s (some ts) =
      BoundaryOutcome.rejectedAtUI "Please select a date between 2020 and 2030" ∧
    reachesCore (dateRequestBoundary m trig s2 ts2) = false ∧
    dateRequestBoundary m trig "1999-01-01" (some 915148800000) =
      BoundaryOutcome.rejectedAtUI "Please select a date between 2020 and 2030" := by
  refine ⟨?_, ?_, ?_, ?_⟩
  · simp [manualRequestBoundary, hf]
  · have hrange : (jsDateLt (some ts) (some minDateTs) ||
        jsDateLt (some maxDateTs) (some ts)) = true := by
      rcases hts with h | h
      · simp [jsDateLt, h]
      · simp [jsDateLt, h]
    simp [dateRequestBoundary, hs, hrange]
  · unfold dateRequestBoundary
    split_ifs <;> simp [reachesCore, hp]
  · have h1 : ("1999-01-01" : String) ≠ "" := by decide
    have h2 : jsDateLt (some 915148800000) (some minDateTs) = true := by decide
    simp [dateRequestBoundary, h1, h2]

/-- Closed check of C5: the all-empty form, the date 1999-01-01 with its
real parsed timestamp, and the unparsable date 2024-13-99. -/
theorem invalid_input_rejected_at_boundary_check :
    manualFormRejects formEmpty = true ∧
    ("1999-01-01" : String) ≠ "" ∧
    ((915148800000 : Int) < minDateTs ∨ maxDateTs < (915148800000 : Int)) ∧
    parseIsoDate "2024-13-99" = none ∧
    (manualRequestBoundary mdl0 trig0 formEmpty =
        BoundaryOutcome.rejectedAtUI "Please fill in all fields with valid numbers" ∧
      dateRequestBoundary mdl0 trig0 "1999-01-01" (some 915148800000) =
        BoundaryOutcome.rejectedAtUI "Please select a date between 2020 and 2030" ∧
      reachesCore (dateRequestBoundary mdl0 trig0 "2024-13-99" none) = false ∧
      dateRequestBoundary mdl0 trig0 "1999-01-01" (some 915148800000) =
        BoundaryOutcome.rejectedAtUI "Please select a date between 2020 and 2030") :=
  ⟨by decide, by decide, Or.inl (by decide), by decide,
    invalid_input_rejected_at_boundary mdl0 trig0 formEmpty "1999-01-01" 915148800000
      "2024-13-99" none (by decide) (by decide) (Or.inl (by decide)) (by decide)⟩

/-- Claim C6: a date-based prediction result carries the synthesized
reading for the date as its estimated conditions and echoes the date
string; a manual prediction result carries no estimated conditions. -/
theorem prediction_result_estimated_conditions (m : FrozenModel) (trig : Trig)
    (d : CalendarDate) (r : RawReading) :
    (predictByDate m trig d).estimatedConditions = some (synthesize d) ∧
    (predictByDate m trig d).date = some (isoString d) ∧
    (predictManual m trig r).estimatedConditions = none ∧
    (predictManual m trig r).date = none :=
  ⟨rfl, rfl, rfl, rfl⟩

/-- Claim C7: the category field of every prediction result is one of the
five literal strings Good, Moderate, Poor, Very Poor (with a space) and
Hazardous, and the category-name map produces no other string. -/
theorem category_field_is_canonical_string (m : FrozenModel) (trig : Trig)
    (d : CalendarDate) (r : RawReading) :
    (predictManual m trig r).category ∈
      ["Good", "Moderate", "Poor", "Very Poor", "Hazardous"] ∧
    (predictByDate m trig d).category ∈
      ["Good", "Moderate", "Poor", "Very Poor", "Hazardous"] ∧
    ∀ c : Category, categoryName c ∈ ["Good", "Moderate", "Poor", "Very Poor", "Hazardous"] :=
  ⟨categoryName_mem_all _, categoryName_mem_all _, categoryName_mem_all⟩

/-- Counterexample to claim C8 as stated: the category string toString is
not one of the five known names, yet `AQICard` does not render it with
the Good entries — the record access finds the member inherited from
`Object.prototype`, which is truthy, so each getter returns that
inherited function instead of the Good color, icon or description. -/
theorem unknown_category_toString_not_good :
    ("toString" : String) ∉ ["Good", "Moderate", "Poor", "Very Poor", "Hazardous"] ∧
    getAQIColor "toString" ≠ getAQIColor "Good" ∧
    getIcon "toString" ≠ getIcon "Good" ∧
    getDescription "toString" ≠ getDescription "Good" := by
  refine ⟨by decide, by decide, by decide, by decide⟩

/-- Claim C8 as amended: a category string that is neither one of the five
known names nor the name of an `Object.prototype` member — the empty
string included — is rendered by `AQICard` with the color, icon and
health description of Good. -/
theorem unknown_category_fallback_amended (s : String)
    (h : s ∉ ["Good", "Moderate", "Poor", "Very Poor", "Hazardous"])
    (hp : s ∉ objectPrototypeProps) :
    getAQIColor s = getAQIColor "Good" ∧
    getIcon s = getIcon "Good" ∧
    getDescription s = getDescription "Good" := by
  simp only [List.mem_cons, List.not_mem_nil, or_false, not_or] at h
  obtain ⟨h1, h2, h3, h4, h5⟩ := h
  have e1 : (s == "Good") = false := beq_eq_false_iff_ne.mpr h1
  have e2 : (s == "Moderate") = false := beq_eq_false_iff_ne.mpr h2
  have e3 : (s == "Poor") = false := beq_eq_false_iff_ne.mpr h3
  have e4 : (s == "Very Poor") = false := beq_eq_false_iff_ne.mpr h4
  have e5 : (s == "Hazardous") = false := beq_eq_false_iff_ne.mpr h5
  refine ⟨?_, ?_, ?_⟩ <;>
    simp [getAQIColor, getIcon, getDescription, aqiColors, aqiIcons, aqiDescriptions,
      jsIndex, jsOrElse, truthy, List.lookup, e1, e2, e3, e4, e5, hp]

/-- Closed check of amended C8 at the concrete unknown category string
Unknown, which is neither an own key nor a prototype member. -/
theorem unknown_category_fallback_amended_check :
    ("Unknown" : String) ∉ ["Good", "Moderate", "Poor", "Very Poor", "Hazardous"] ∧
    ("Unknown" : String) ∉ objectPrototypeProps ∧
    (getAQIColor "Unknown" = getAQIColor "Good" ∧
      getIcon "Unknown" = getIcon "Good" ∧
      getDescription "Unknown" = getDescription "Good") :=
  ⟨by decide, by decide, unknown_category_fallback_amended "Unknown" (by decide) (by decide)⟩

/-- Claim C9: for a non-empty date string whose JavaScript parse is an
Invalid Date (NaN timestamp), both range comparisons of
`DatePredictionForm.handleSubmit` are false, so the unparsable date passes
validation and is submitted to the `/predict-by-date` API. -/
theorem nan_date_passes_range_validation (s : String) (h : s ≠ "") :
    jsDateLt none (some minDateTs) = false ∧
    jsDateLt (some maxDateTs) none = false ∧
    datePredictionValidate s none = DateFormOutcome.submitted s := by
  refine ⟨rfl, rfl, ?_⟩
  simp [datePredictionValidate, jsDateLt, h]

/-- Closed check of C9 at the concrete unparsable date string not-a-date. -/
theorem nan_date_passes_range_validation_check :
    ("not-a-date" : String) ≠ "" ∧
    (jsDateLt none (some minDateTs) = false ∧
      jsDateLt (some maxDateTs) none = false ∧
      datePredictionValidate "not-a-date" none = DateFormOutcome.submitted "not-a-date") :=
  ⟨by decide, nan_date_passes_range_validation "not-a-date" (by decide)⟩

/-- Claim C10: the `PredictionForm` validation rejects a submission exactly
when some field is the empty string or converts to NaN; the string
Infinity converts to a non-finite number, passes validation, and is placed
in the submitted `/predict` payload. -/
theorem manual_validation_iff_empty_or_nan (f : FormData) :
    (manualFormRejects f = true ↔
      ∃ v ∈ formValues f, v = "" ∨ jsNumber v = JSNum.nan) ∧
    jsNumber "Infinity" = JSNum.inf ∧
    manualFormRejects formInfinity = false ∧
    (manualSubmitPayload formInfinity).lookup "PM25" = some JSNum.inf := by
  refine ⟨?_, by decide, by decide, by decide⟩
  simp only [manualFormRejects, List.any_eq_true, Bool.or_eq_true, beq_iff_eq,
    isNaNb_eq_true]
